import Mathlib

/-!
# Verification of the recurrence-projection engine of `mcp_google`

Shallow embedding of `project_recurring_events` (src/mcp_google/calendar.py,
lines 532-697) and the pydantic data model it consumes
(src/mcp_google/calendar_models.py), together with models of the external
`dateutil` functions it calls, faithful to their behaviour on the dynamic
values the source actually passes them.

Key facts of the source that the embedding preserves:

* The pydantic models (`EventDateTime` in calendar_models.py) declare
  `dateTime : Optional[datetime.datetime]` and `date : Optional[datetime.date]`,
  so by the time `project_recurring_events` runs, these fields hold
  already-parsed datetime/date objects, not strings.
* `dateutil.parser.isoparse` and `dateutil.parser.parse` accept only
  strings (or character streams); handed a `datetime`/`date` object they
  raise `TypeError`.  The handlers at calendar.py lines 595 and 610 catch
  only `ValueError`, so this `TypeError` propagates out of the function.
* The scan over `event.recurrence` (lines 622-626) rebinds `rrule_str`
  on every `RRULE:`-prefixed line, so the last such line wins.
* Line 636 does `ruleset.rrule(main_rule[0])` where `main_rule` is the
  `rruleset` returned by `rrulestr(..., forceset=True)`; indexing an
  rruleset yields its first generated occurrence (a `datetime`), and
  appending a datetime as a "rule" makes the later `between` call raise
  `TypeError` (datetimes are not iterable), caught by the
  `except Exception` at line 691.
-/

/-- A Python `datetime.datetime`: `val` is the wall-clock reading in seconds
since the epoch, `tz` an optional fixed UTC offset in seconds (`none` = a
naive datetime).  `replace(tzinfo=...)` swaps `tz` without touching `val`. -/
structure PyDateTime where
  val : Int
  tz : Option Int
deriving DecidableEq

/-- The Python exceptions relevant to the projection code. -/
inductive PyErr where
  | typeError
  | valueError
  | indexError
deriving DecidableEq

/-- A dynamic value handed to the `dateutil` parsing functions: the source
passes strings (EXDATE values) but also the already-parsed
`datetime.datetime` / `datetime.date` objects stored by the pydantic model. -/
inductive PyVal where
  | str (s : String)
  | dt (d : PyDateTime)
  | date (day : Int)
deriving DecidableEq

/-- The instant a datetime denotes, used by Python's comparison of two aware
datetimes (UTC instant) and of two naive datetimes (wall clock). -/
def dtKey (d : PyDateTime) : Int := d.val - (d.tz.getD 0)

/-- Whether two datetimes have the same timezone-awareness; Python refuses to
order a naive against an aware datetime (`TypeError`). -/
def sameAware (a b : PyDateTime) : Bool := a.tz.isSome == b.tz.isSome

/-- Python `aware_or_naive_datetime - datetime`: a `timedelta` in seconds when
both sides have the same awareness, `TypeError` otherwise. -/
def pySub (a b : PyDateTime) : Except PyErr Int :=
  match a.tz, b.tz with
  | none, none => .ok (a.val - b.val)
  | some x, some y => .ok ((a.val - x) - (b.val - y))
  | _, _ => .error .typeError

/-- `datetime.date` (pydantic `start.date`) as days since 1970-01-01, and
`datetime.combine(d, datetime.min.time())` as midnight of that day, naive. -/
def combineMidnight (day : Int) : PyDateTime := { val := day * 86400, tz := none }

/-- Value of a decimal digit character. -/
def digitVal (c : Char) : Nat := c.toNat - 48

/-- Parse a non-empty all-digit character list as a decimal number. -/
def decDigits? (cs : List Char) : Option Nat :=
  if cs.isEmpty then none
  else
    cs.foldl
      (fun acc c =>
        match acc with
        | none => none
        | some a => if c.isDigit then some (a * 10 + digitVal c) else none)
      (some 0)

/-- Python `pre in s` at position 0 / `s.startswith(pre)`. -/
def pyStartsWith (s pre : String) : Bool := pre.data.isPrefixOf s.data

/-- Split a character list at every occurrence of `sep`. -/
def splitCharAux (sep : Char) : List Char → List Char → List (List Char)
  | [], acc => [acc.reverse]
  | c :: cs, acc =>
    if c == sep then acc.reverse :: splitCharAux sep cs []
    else splitCharAux sep cs (c :: acc)

/-- Python `s.split(sep)` for a one-character separator. -/
def pySplit (sep : Char) (s : String) : List String :=
  (splitCharAux sep s.data []).map String.mk

/-- Split at the first occurrence of `sep` only (`none` when absent):
Python `s.split(sep, 1)` yielding two parts. -/
def splitOnceChar (sep : Char) : List Char → Option (List Char × List Char)
  | [] => none
  | c :: cs =>
    if c == sep then some ([], cs)
    else (splitOnceChar sep cs).map (fun p => (c :: p.1, p.2))

/-- ASCII uppercase of one character. -/
def charUpper (c : Char) : Char :=
  if c.isLower then Char.ofNat (c.toNat - 32) else c

/-- Python `s.upper()` (ASCII). -/
def pyToUpper (s : String) : String := String.mk (s.data.map charUpper)

/-- Gregorian leap year. -/
def isLeap (y : Nat) : Bool := y % 4 == 0 && (y % 100 != 0 || y % 400 == 0)

/-- Days in a month of the proleptic Gregorian calendar. -/
def daysInMonth (y m : Nat) : Nat :=
  if m == 2 then (if isLeap y then 29 else 28)
  else if m == 4 || m == 6 || m == 9 || m == 11 then 30
  else 31

/-- Valid calendar date with a positive year. -/
def validYMD (y m d : Nat) : Bool :=
  1 ≤ y && 1 ≤ m && m ≤ 12 && 1 ≤ d && d ≤ daysInMonth y m

/-- Days from 1970-01-01 to year/month/day (civil-calendar algorithm). -/
def daysFromCivil (y m d : Nat) : Int :=
  let y' := if m ≤ 2 then y - 1 else y
  let era := y' / 400
  let yoe := y' % 400
  let mp := (m + 9) % 12
  let doy := (153 * mp + 2) / 5 + (d - 1)
  let doe := yoe * 365 + yoe / 4 - yoe / 100 + doy
  ((era * 146097 + doe : Nat) : Int) - 719468

/-- Parse eight digit characters as a calendar date, giving the epoch day. -/
def parseDate8 (y1 y2 y3 y4 m1 m2 d1 d2 : Char) : Option Int :=
  if (y1.isDigit && y2.isDigit && y3.isDigit && y4.isDigit &&
      m1.isDigit && m2.isDigit && d1.isDigit && d2.isDigit) then
    let y := digitVal y1 * 1000 + digitVal y2 * 100 + digitVal y3 * 10 + digitVal y4
    let m := digitVal m1 * 10 + digitVal m2
    let d := digitVal d1 * 10 + digitVal d2
    if validYMD y m d then some (daysFromCivil y m d) else none
  else none

/-- Parse six digit characters as a time of day, giving seconds into the day. -/
def parseTime6 (h1 h2 n1 n2 s1 s2 : Char) : Option Nat :=
  match decDigits? [h1, h2], decDigits? [n1, n2], decDigits? [s1, s2] with
  | some hh, some nn, some ss =>
    if hh < 24 && nn < 60 && ss < 60 then some (hh * 3600 + nn * 60 + ss) else none
  | _, _, _ => none

/-- Parse the ISO-8601 basic forms that appear in Google Calendar recurrence
data: `YYYYMMDD`, `YYYYMMDDTHHMMSS` and `YYYYMMDDTHHMMSSZ`.  Result:
(epoch day, seconds into the day, optional UTC offset). -/
def parseBasicChars : List Char → Option (Int × Nat × Option Int)
  | [y1, y2, y3, y4, m1, m2, d1, d2] =>
    match parseDate8 y1 y2 y3 y4 m1 m2 d1 d2 with
    | some day => some (day, 0, none)
    | none => none
  | [y1, y2, y3, y4, m1, m2, d1, d2, 'T', h1, h2, n1, n2, s1, s2] =>
    match parseDate8 y1 y2 y3 y4 m1 m2 d1 d2, parseTime6 h1 h2 n1 n2 s1 s2 with
    | some day, some secs => some (day, secs, none)
    | _, _ => none
  | [y1, y2, y3, y4, m1, m2, d1, d2, 'T', h1, h2, n1, n2, s1, s2, 'Z'] =>
    match parseDate8 y1 y2 y3 y4 m1 m2 d1 d2, parseTime6 h1 h2 n1 n2 s1 s2 with
    | some day, some secs => some (day, secs, some 0)
    | _, _ => none
  | _ => none

/-- Modelled from `dateutil.parser.isoparse`: on a string, parse the ISO-8601
basic formats above (other formats are treated as unparsable and raise
`ValueError`); on any non-string — in the source this is the already-parsed
`datetime.datetime` stored by the pydantic model — it raises `TypeError`. -/
def dateutil_isoparse : PyVal → Except PyErr PyDateTime
  | .str s =>
    match parseBasicChars s.data with
    | some (day, secs, tz) => .ok { val := day * 86400 + (secs : Int), tz := tz }
    | none => .error .valueError
  | _ => .error .typeError

/-- Modelled from `dateutil.parser.parse(x).date()`: on a string, parse and
truncate to the calendar date (epoch day); on any non-string — in the source
the pydantic `datetime.date` object — `dateutil.parser.parse` raises
`TypeError` ("Parser must be a string or character stream"). -/
def dateutil_parse_toDate : PyVal → Except PyErr Int
  | .str s =>
    match parseBasicChars s.data with
    | some (day, _, _) => .ok day
    | none => .error .valueError
  | _ => .error .typeError

/-! ## Data model (src/mcp_google/calendar_models.py) -/

/-- `EventDateTime` (calendar_models.py lines 10-17): the pydantic model has
already parsed the backend's strings, so `date` is a `datetime.date` (epoch
day) and `dateTime` a `datetime.datetime`. -/
structure EventDateTime where
  date : Option Int
  dateTime : Option PyDateTime
deriving DecidableEq

/-- The fields of `GoogleCalendarEvent` (calendar_models.py lines 75-100) that
`project_recurring_events` reads. -/
structure GoogleCalendarEvent where
  id : Option String
  summary : Option String
  start : Option EventDateTime
  end_ : Option EventDateTime
  recurrence : Option (List String)
deriving DecidableEq

/-- `ProjectedEventOccurrence` (calendar_models.py lines 177-186).  The source
annotates `original_event_id : str` but passes `event.id`, an `Optional[str]`
that Python never checks, so the field is modelled as optional. -/
structure ProjectedEventOccurrence where
  original_event_id : Option String
  original_summary : String
  occurrence_start : PyDateTime
  occurrence_end : PyDateTime
deriving DecidableEq

/-! ## Anchor and duration derivation (calendar.py lines 582-616) -/

/-- The `except ValueError: ... continue` handlers at calendar.py lines
595-597 and 610-612: a `ValueError` becomes `continue` (no anchor, event
skipped); every other exception propagates. -/
def catchVE {α : Type} (x : Except PyErr (Option α)) : Except PyErr (Option α) :=
  match x with
  | .error .valueError => .ok none
  | r => r

/-- Lines 582-616: derive `dtstart_obj` and `event_duration` (seconds).
`ok none` is the `continue` paths; errors are uncaught exceptions.

* Timed events (lines 586-597): `isoparse(event.start.dateTime)` on the
  pydantic datetime object; duration `end - start`, default 1 hour (3600 s).
* All-day events (lines 598-612): `parse(event.start.date).date()` on the
  pydantic date object, combined with midnight; the window's timezone is
  attached when `time_min` is aware; duration `end.date - start.date`,
  default 1 day (86400 s). -/
def deriveAnchor (time_min : PyDateTime) (st : EventDateTime)
    (evEnd : Option EventDateTime) : Except PyErr (Option (PyDateTime × Int)) :=
  match st.dateTime with
  | some sdt =>
    catchVE (do
      let dtstart ← dateutil_isoparse (PyVal.dt sdt)
      match evEnd with
      | some ed =>
        match ed.dateTime with
        | some edt => do
          let dtend ← dateutil_isoparse (PyVal.dt edt)
          let dur ← pySub dtend dtstart
          pure (some (dtstart, dur))
        | none => pure (some (dtstart, 3600))
      | none => pure (some (dtstart, 3600)))
  | none =>
    match st.date with
    | some sd =>
      catchVE (do
        let start_day ← dateutil_parse_toDate (PyVal.date sd)
        let base := combineMidnight start_day
        let dtstart := if time_min.tz.isSome then { base with tz := time_min.tz } else base
        match evEnd with
        | some ed =>
          match ed.date with
          | some edd => do
            let end_day ← dateutil_parse_toDate (PyVal.date edd)
            pure (some (dtstart, (end_day - start_day) * 86400))
          | none => pure (some (dtstart, 86400))
        | none => pure (some (dtstart, 86400)))
    | none => .ok none

/-! ## RRULE / EXDATE line scan (calendar.py lines 618-630) -/

/-- One iteration of the loop at lines 622-626: an `RRULE:`-prefixed line
rebinds `rrule_str` (so a later line overwrites an earlier one), an
`EXDATE`-prefixed line is appended to `exdate_strs`. -/
def extractStep (acc : Option String × List String) (rule_str : String) :
    Option String × List String :=
  if pyStartsWith rule_str "RRULE:" then (some rule_str, acc.2)
  else if pyStartsWith rule_str "EXDATE" then (acc.1, acc.2 ++ [rule_str])
  else acc

/-- Lines 618-626: scan the recurrence-line list for the RRULE to use and the
EXDATE lines. -/
def extractRecurrence (recurrence : List String) : Option String × List String :=
  recurrence.foldl extractStep (none, [])

/-! ## EXDATE parsing (calendar.py lines 639-666) -/

/-- Python `s.split(':', 1)` when it yields two parts (line 640-642);
`none` when the line has no `:` (the line is then ignored). -/
def splitColonOnce (s : String) : Option (String × String) :=
  (splitOnceChar ':' s.data).map (fun p => (String.mk p.1, String.mk p.2))

/-- Python `part.split('=', 1)` when `'=' in part` (lines 648-649). -/
def splitEqOnce (s : String) : Option (String × String) :=
  (splitOnceChar '=' s.data).map (fun p => (String.mk p.1, String.mk p.2))

/-- Lines 644-652: build the parameter dict from `param_str.split(';')[1:]`
(keys uppercased, later duplicates overwrite) and test
`params.get('VALUE') == 'DATE'`. -/
def exdateIsAllDay (param_str : String) : Bool :=
  match pySplit ';' param_str with
  | [] => false
  | [_] => false
  | _ :: rest =>
    let entries := rest.filterMap splitEqOnce
    let vs := entries.filterMap
      (fun kv => if pyToUpper kv.1 == "VALUE" then some kv.2 else none)
    match vs.getLast? with
    | some v => v == "DATE"
    | none => false

/-- Lines 654-666, one date value: a `VALUE=DATE` value is parsed as a date,
combined with midnight, and given the anchor's tzinfo when the anchor is
aware (lines 656-660); otherwise the value goes through `isoparse`
unchanged (line 662).  A `ValueError` drops the value (lines 665-666). -/
def parse_one_exdate (dtstart : PyDateTime) (is_all_day : Bool) (date_str : String) :
    Option PyDateTime :=
  if is_all_day then
    match dateutil_parse_toDate (PyVal.str date_str) with
    | .ok day => some { val := day * 86400, tz := dtstart.tz }
    | .error _ => none
  else
    match dateutil_isoparse (PyVal.str date_str) with
    | .ok d => some d
    | .error _ => none

/-- Lines 639-666, one EXDATE line: split off the parameter block, read the
`VALUE=DATE` flag, and parse the comma-separated values. -/
def parse_exdate_line (dtstart : PyDateTime) (exdate_str : String) : List PyDateTime :=
  match splitColonOnce exdate_str with
  | none => []
  | some (param_str, dates_str) =>
    let is_all_day := exdateIsAllDay param_str
    (pySplit ',' dates_str).filterMap (parse_one_exdate dtstart is_all_day)

/-! ## dateutil rrule model (external library, calendar.py lines 632-669) -/

/-- An `rrule` of the subset the model supports: `step` is the frequency unit
in seconds (DAILY = 86400, WEEKLY = 604800), `interval` ≥ 1, `count` an
optional occurrence cap. -/
structure RRule where
  step : Int
  interval : Nat
  count : Option Nat
deriving DecidableEq

/-- Modelled from `dateutil.rrule.rrulestr` restricted to
`RRULE:FREQ=DAILY|WEEKLY` with optional `INTERVAL=n` (n ≥ 1) and `COUNT=n`;
every other string is treated as unparsable (`ValueError`). -/
def parseRRuleStr (s : String) : Except PyErr RRule :=
  if pyStartsWith s "RRULE:" then
    let parts := pySplit ';' (String.mk (s.data.drop 6))
    let res := parts.foldl
      (fun (acc : Option (Option Int × Nat × Option Nat)) part =>
        match acc with
        | none => none
        | some (freq, itv, cnt) =>
          match splitEqOnce part with
          | none => none
          | some (k, v) =>
            if k == "FREQ" then
              if v == "DAILY" then some (some 86400, itv, cnt)
              else if v == "WEEKLY" then some (some 604800, itv, cnt)
              else none
            else if k == "INTERVAL" then
              match decDigits? v.data with
              | some n => if n == 0 then none else some (freq, n, cnt)
              | none => none
            else if k == "COUNT" then
              match decDigits? v.data with
              | some n => some (freq, itv, some n)
              | none => none
            else none)
      (some (none, 1, none))
    match res with
    | some (some st, itv, cnt) => .ok { step := st, interval := itv, count := cnt }
    | _ => .error .valueError
  else .error .valueError

/-- `main_rule[0]` at calendar.py line 636: indexing the rruleset returned by
`rrulestr(..., forceset=True)` runs its generator and returns the FIRST
OCCURRENCE — a `datetime`, not a rule.  For the plain-frequency subset the
first occurrence is `dtstart` itself; an empty rule raises `IndexError`. -/
def rrulesetFirst (r : RRule) (dtstart : PyDateTime) : Except PyErr PyDateTime :=
  if r.count == some 0 then .error .indexError else .ok dtstart

/-- What `ruleset.rrule(x)` stores in `rruleset._rrule`: the source appends
the datetime produced by `main_rule[0]` where a rule object was intended. -/
inductive RSetItem where
  | ruleItem (r : RRule) (dtstart : PyDateTime)
  | dtItem (d : PyDateTime)
deriving DecidableEq

/-- Whether a stored item is a bare datetime (over which `iter()` raises). -/
def isDtItem : RSetItem → Bool
  | .dtItem _ => true
  | .ruleItem _ _ => false

/-- Occurrences of a rule anchored at `dtstart`, truncated at the first
occurrence past `time_max` (dateutil generates lazily and `between` stops
there). -/
def ruleOccs (r : RRule) (dtstart time_max : PyDateTime) : List PyDateTime :=
  let delta : Int := (r.interval : Int) * r.step
  let nWin : Nat :=
    if dtKey time_max < dtKey dtstart then 0
    else ((dtKey time_max - dtKey dtstart) / delta).toNat + 1
  let n : Nat := match r.count with | some c => min c nWin | none => nWin
  (List.range n).map (fun k => { val := dtstart.val + (k : Int) * delta, tz := dtstart.tz })

/-- Modelled from `rruleset.between(time_min, time_max, inc=True)`
(calendar.py line 669) over `rruleset._iter`:

* iterating the stored items does `iter(x)`; a bare datetime stored by
  `ruleset.rrule(main_rule[0])` is not iterable, so `TypeError`;
* sorting/merging the exclusion dates against the generated occurrences
  orders naive against aware datetimes, so mixed awareness raises
  `TypeError` (modelled conservatively: any mixed comparison that the
  merge could perform is an error);
* an occurrence equal (same instant, same awareness) to an exclusion is
  suppressed; the survivors are filtered to the closed window. -/
def rulesetBetween (items : List RSetItem) (exdates : List PyDateTime)
    (time_min time_max : PyDateTime) : Except PyErr (List PyDateTime) :=
  if items.any isDtItem then .error .typeError
  else
    match items with
    | [RSetItem.ruleItem r dtstart] =>
      if exdates.any (fun e => exdates.any (fun f => !(sameAware e f))) then
        .error .typeError
      else if !exdates.isEmpty && !(r.count == some 0)
          && exdates.any (fun e => !(sameAware e dtstart)) then
        .error .typeError
      else
        let raw := ruleOccs r dtstart time_max
        let stream := raw.filter
          (fun o => !(exdates.any (fun e => sameAware e o && dtKey e == dtKey o)))
        if !stream.isEmpty && (!(sameAware time_min dtstart) || !(sameAware time_max dtstart)) then
          .error .typeError
        else
          .ok (stream.filter
            (fun o => decide (dtKey time_min ≤ dtKey o) && decide (dtKey o ≤ dtKey time_max)))
    | _ => .error .valueError

/-! ## Per-event occurrence generation (calendar.py lines 632-693) -/

/-- Lines 632-693, the `try` block: build the ruleset (parse the RRULE with
`forceset=True`, store `main_rule[0]` via `ruleset.rrule`, add the parsed
exclusion dates), run `between`, and on success emit one
`ProjectedEventOccurrence` per surviving instant — reconciling its awareness
with the anchor's (lines 675-678), adding the fixed duration (line 680), and
substituting "No Summary" for a `None` or empty summary (line 685).  The
`except Exception` at line 691 turns any exception inside the block into
`continue`, i.e. no occurrences for this event. -/
def processRecurrence (time_min time_max dtstart : PyDateTime) (event_duration : Int)
    (rrule_str : String) (exdate_strs : List String)
    (eid : Option String) (summary : Option String) : List ProjectedEventOccurrence :=
  let r : Except PyErr (List PyDateTime) := do
    let main_rule ← parseRRuleStr rrule_str
    let first ← rrulesetFirst main_rule dtstart
    let items := [RSetItem.dtItem first]
    let exdates := exdate_strs.flatMap (parse_exdate_line dtstart)
    rulesetBetween items exdates time_min time_max
  match r with
  | .error _ => []
  | .ok occs =>
    occs.map (fun occ0 =>
      let occ :=
        if dtstart.tz.isSome && occ0.tz.isNone then { occ0 with tz := dtstart.tz }
        else if dtstart.tz.isNone && occ0.tz.isSome then { occ0 with tz := none }
        else occ0
      { original_event_id := eid
        original_summary :=
          match summary with
          | none => "No Summary"
          | some s => if s == "" then "No Summary" else s
        occurrence_start := occ
        occurrence_end := { val := occ.val + event_duration, tz := occ.tz } })

/-- Lines 574-693, one master event.  `ok []` covers every `continue` path
(no recurrence list or an empty one, no usable start, `ValueError` while
parsing, no RRULE line, any exception inside the rule-evaluation block);
an error is an exception that escapes the loop body. -/
def processEvent (time_min time_max : PyDateTime) (event : GoogleCalendarEvent) :
    Except PyErr (List ProjectedEventOccurrence) :=
  match event.recurrence with
  | none => .ok []
  | some recLines =>
    if recLines.isEmpty then .ok []
    else
      match event.start with
      | none => .ok []
      | some st =>
        match st.dateTime, st.date with
        | none, none => .ok []
        | _, _ =>
          match deriveAnchor time_min st event.end_ with
          | .error e => .error e
          | .ok none => .ok []
          | .ok (some (dtstart, event_duration)) =>
            match (extractRecurrence recLines).1 with
            | none => .ok []
            | some rrule_str =>
              .ok (processRecurrence time_min time_max dtstart event_duration
                    rrule_str (extractRecurrence recLines).2 event.id event.summary)

/-- Stable insertion of an occurrence into a list already sorted by start
instant, placing it before later-input occurrences with an equal key. -/
def insertByStart (x : ProjectedEventOccurrence) :
    List ProjectedEventOccurrence → List ProjectedEventOccurrence
  | [] => [x]
  | y :: ys =>
    if dtKey y.occurrence_start < dtKey x.occurrence_start then y :: insertByStart x ys
    else x :: y :: ys

/-- Stable sort by `occurrence_start` key. -/
def sortByStart : List ProjectedEventOccurrence → List ProjectedEventOccurrence
  | [] => []
  | x :: xs => insertByStart x (sortByStart xs)

/-- Line 696: `projected_occurrences.sort(key=lambda x: x.occurrence_start)`.
Python's sort compares the datetime keys directly, so a list mixing naive and
aware starts raises `TypeError`; otherwise the sort is stable ascending. -/
def pySortByStart (occs : List ProjectedEventOccurrence) :
    Except PyErr (List ProjectedEventOccurrence) :=
  if occs.any (fun a => occs.any (fun b => !(sameAware a.occurrence_start b.occurrence_start)))
  then .error .typeError
  else .ok (sortByStart occs)

/-- `project_recurring_events` (calendar.py lines 532-697).  The backend fetch
(`find_events`) is abstracted as the function's input: `none` models a failed
fetch (lines 567-569 return `[]`), `some items` the fetched master events.
Events are processed in discovery order, their occurrence lists concatenated
and sorted; an exception escaping one event's processing aborts the call. -/
def project_recurring_events (master_events_response : Option (List GoogleCalendarEvent))
    (time_min time_max : PyDateTime) : Except PyErr (List ProjectedEventOccurrence) :=
  match master_events_response with
  | none => .ok []
  | some items =>
    if items.isEmpty then .ok []
    else
      match items.mapM (processEvent time_min time_max) with
      | .error e => .error e
      | .ok lists => pySortByStart lists.flatten

/-! ## Concrete inputs used by the claim theorems -/

/-- Projection window start: a timezone-aware instant (UTC). -/
def windowMin : PyDateTime := { val := 0, tz := some 0 }

/-- Projection window end: nine days after `windowMin`, timezone-aware. -/
def windowMax : PyDateTime := { val := 777600, tz := some 0 }

/-- A well-formed timed daily master event (the spec's scenario A shape):
aware start/end datetimes 30 minutes apart, `RRULE:FREQ=DAILY;COUNT=5`. -/
def evDaily : GoogleCalendarEvent :=
  { id := some "ev-daily", summary := some "Daily Standup"
    start := some { date := none, dateTime := some { val := 32400, tz := some 0 } }
    end_ := some { date := none, dateTime := some { val := 34200, tz := some 0 } }
    recurrence := some ["RRULE:FREQ=DAILY;COUNT=5"] }

/-- Scenario B shape: the daily event plus an EXDATE inside the window. -/
def evDailyExdate : GoogleCalendarEvent :=
  { id := some "ev-exdate", summary := some "Daily With Exception"
    start := some { date := none, dateTime := some { val := 32400, tz := some 0 } }
    end_ := some { date := none, dateTime := some { val := 34200, tz := some 0 } }
    recurrence := some ["RRULE:FREQ=DAILY;COUNT=5", "EXDATE:19700103T090000Z"] }

/-- A timed weekly event with an explicit end 45 minutes after its start. -/
def evWeekly : GoogleCalendarEvent :=
  { id := some "ev-weekly", summary := some "Weekly Sync"
    start := some { date := none, dateTime := some { val := 36000, tz := some 0 } }
    end_ := some { date := none, dateTime := some { val := 38700, tz := some 0 } }
    recurrence := some ["RRULE:FREQ=WEEKLY;COUNT=3"] }

/-- An event with a recurrence but no start specification at all
(scenario E's malformed event). -/
def evNoStart : GoogleCalendarEvent :=
  { id := some "ev-nostart", summary := some "Broken"
    start := none, end_ := none
    recurrence := some ["RRULE:FREQ=DAILY;COUNT=2"] }

/-- An all-day weekly master event: `start.date` set, no `start.dateTime`. -/
def evAllDay : GoogleCalendarEvent :=
  { id := some "ev-allday", summary := some "All Day Weekly"
    start := some { date := some 4, dateTime := none }
    end_ := some { date := some 5, dateTime := none }
    recurrence := some ["RRULE:FREQ=WEEKLY;COUNT=3"] }

/-- An event whose explicit end is EARLIER than its start (intended duration
would be negative: end − start = −3600 s). -/
def evEndBeforeStart : GoogleCalendarEvent :=
  { id := some "ev-negdur", summary := some "Backwards"
    start := some { date := none, dateTime := some { val := 36000, tz := some 0 } }
    end_ := some { date := none, dateTime := some { val := 32400, tz := some 0 } }
    recurrence := some ["RRULE:FREQ=DAILY;COUNT=2"] }

/-- A recurring event whose summary is absent (`None`). -/
def evNoSummary : GoogleCalendarEvent :=
  { id := some "ev-nosummary", summary := none
    start := some { date := none, dateTime := some { val := 32400, tz := some 0 } }
    end_ := some { date := none, dateTime := some { val := 34200, tz := some 0 } }
    recurrence := some ["RRULE:FREQ=DAILY;COUNT=3"] }

/-! ## Helper lemmas -/

/-- When a line is not `RRULE:`-prefixed, the scan step leaves the selected
rule unchanged. -/
theorem extractStep_fst_of_not (acc : Option String × List String) (a : String)
    (h : pyStartsWith a "RRULE:" = false) : (extractStep acc a).1 = acc.1 := by
  by_cases h2 : pyStartsWith a "EXDATE" <;> simp [extractStep, h, h2]

/-- The selected rule after folding the scan step over any suffix is the last
`RRULE:`-prefixed line of that suffix, or the accumulator's selection if the
suffix has none. -/
theorem extract_fst_foldl (l : List String) :
    ∀ acc : Option String × List String,
      (l.foldl extractStep acc).1 =
        match (l.filter (fun s => pyStartsWith s "RRULE:")).getLast? with
        | some r => some r
        | none => acc.1 := by
  induction l with
  | nil => intro acc; simp
  | cons a t ih =>
    intro acc
    simp only [List.foldl_cons, List.filter_cons]
    by_cases h : pyStartsWith a "RRULE:"
    · rw [ih]
      simp only [h, if_true]
      cases hf : t.filter (fun s => pyStartsWith s "RRULE:") with
      | nil => simp [extractStep, h]
      | cons b u =>
        rw [List.getLast?_cons_cons]
        cases hg : (b :: u).getLast? with
        | none => exact absurd (List.getLast?_eq_none_iff.mp hg) (by simp)
        | some x => simp
    · rw [ih]
      simp only [h, if_false, Bool.false_eq_true]
      cases (t.filter (fun s => pyStartsWith s "RRULE:")).getLast? with
      | none => simp [extractStep_fst_of_not acc a (by simpa using h)]
      | some x => simp

/-! ## Claim theorems -/

/-- C1 (counterexample): the claim says the FIRST `RRULE:`-prefixed line of a
master event's recurrence list is the one honored.  On the concrete recurrence
list `["RRULE:FREQ=DAILY;COUNT=2", "RRULE:FREQ=WEEKLY;COUNT=3"]` the scan at
calendar.py lines 622-626 selects (binds to `rrule_str`, to be handed to the
rule parser) the SECOND line, not the first. -/
theorem C1_first_rrule_counterexample :
    (extractRecurrence ["RRULE:FREQ=DAILY;COUNT=2", "RRULE:FREQ=WEEKLY;COUNT=3"]).1
        ≠ some "RRULE:FREQ=DAILY;COUNT=2" ∧
      (extractRecurrence ["RRULE:FREQ=DAILY;COUNT=2", "RRULE:FREQ=WEEKLY;COUNT=3"]).1
        = some "RRULE:FREQ=WEEKLY;COUNT=3" := by
  exact ⟨by decide, by decide⟩

/-- C1 (amended): when a master event's recurrence list contains several
`RRULE:`-prefixed lines, the scan keeps the LAST such line — each
`RRULE:`-prefixed line overwrites the previous binding, so the selected rule
is the last `RRULE:`-prefixed element of the list. -/
theorem C1_rrule_scan_keeps_last (recurrence : List String) :
    (extractRecurrence recurrence).1 =
      (recurrence.filter (fun s => pyStartsWith s "RRULE:")).getLast? := by
  unfold extractRecurrence
  rw [extract_fst_foldl]
  cases (recurrence.filter (fun s => pyStartsWith s "RRULE:")).getLast? with
  | none => rfl
  | some x => rfl

/-- C2: the claim says every occurrence in the returned list has
`time_min ≤ occurrence_start ≤ time_max`.  The code never emits any
occurrence: on the scenario-A event (daily rule, aware start, occurrences due
inside the window) `project_recurring_events` raises an uncaught `TypeError`,
because `date_parser.isoparse` is applied to the `datetime` object the
pydantic model already parsed, and only `ValueError` is handled. -/
theorem C2_projection_raises_before_emitting :
    project_recurring_events (some [evDaily]) windowMin windowMax
      = Except.error PyErr.typeError := by rfl

/-- C3: the claim says an exclusion instant inside the window suppresses the
matching occurrence.  On the scenario-B event (daily rule plus an EXDATE line
inside the window) the projection raises the uncaught `TypeError` before the
EXDATE handling is ever reached, and emits nothing. -/
theorem C3_projection_raises_before_exdate_filtering :
    project_recurring_events (some [evDailyExdate]) windowMin windowMax
      = Except.error PyErr.typeError := by rfl

/-- C4: the claim says every emitted occurrence's `occurrence_end −
occurrence_start` equals the event's fixed derived duration.  On a weekly
event with an explicit 45-minute duration, the projection raises the uncaught
`TypeError` before deriving any duration, and emits nothing. -/
theorem C4_projection_raises_before_duration :
    project_recurring_events (some [evWeekly]) windowMin windowMax
      = Except.error PyErr.typeError := by rfl

/-- C5 (counterexample): the claim says every parsed exclusion has its
timezone-awareness reconciled with the anchor's before comparison.  With a
NAIVE anchor, the exclusion parsed from the dateTime-valued line
`EXDATE:20240101T090000Z` keeps the `Z` offset — it stays aware, its
awareness differing from the anchor's (nothing is stripped). -/
theorem C5_reconciliation_counterexample :
    (parse_exdate_line { val := 0, tz := none } "EXDATE:20240101T090000Z").all
      (fun e => e.tz.isSome == ({ val := 0, tz := none } : PyDateTime).tz.isSome)
      = false := by decide

/-- C5 (amended): the EXDATE parser at calendar.py lines 639-666 reconciles
awareness only for `VALUE=DATE` exclusions, and only by inheriting the
anchor's tzinfo (attached when the anchor is aware, left naive when it is
naive); an exclusion from a dateTime value is exactly what `isoparse` returns
for the value string, its awareness untouched. -/
theorem C5_exdate_awareness_amended (dtstart : PyDateTime) (line : String)
    (e : PyDateTime) (hmem : e ∈ parse_exdate_line dtstart line) :
    (∀ ps ds, splitColonOnce line = some (ps, ds) → exdateIsAllDay ps = true →
        e.tz = dtstart.tz) ∧
    (∀ ps ds, splitColonOnce line = some (ps, ds) → exdateIsAllDay ps = false →
        ∃ v, v ∈ pySplit ',' ds ∧ dateutil_isoparse (PyVal.str v) = Except.ok e) := by
  unfold parse_exdate_line at hmem
  cases hsc : splitColonOnce line with
  | none => rw [hsc] at hmem; simp at hmem
  | some pd =>
    obtain ⟨ps0, ds0⟩ := pd
    rw [hsc] at hmem
    simp only [List.mem_filterMap] at hmem
    obtain ⟨v, hv, hpv⟩ := hmem
    constructor
    · intro ps ds heq hall
      have h2 := Option.some.inj heq
      injection h2 with hps hds
      subst hps
      subst hds
      simp only [parse_one_exdate, hall, if_true] at hpv
      cases hd : dateutil_parse_toDate (PyVal.str v) with
      | ok day =>
        rw [hd] at hpv
        injection hpv with hpv
        rw [← hpv]
      | error err => rw [hd] at hpv; cases hpv
    · intro ps ds heq hall
      have h2 := Option.some.inj heq
      injection h2 with hps hds
      subst hps
      subst hds
      simp only [parse_one_exdate, hall, Bool.false_eq_true, if_false] at hpv
      refine ⟨v, hv, ?_⟩
      cases hi : dateutil_isoparse (PyVal.str v) with
      | ok d =>
        rw [hi] at hpv
        injection hpv with hpv
        rw [hpv]
      | error err => rw [hi] at hpv; cases hpv

/-- Witness for `C5_exdate_awareness_amended`: the aware anchor
`⟨100, some 0⟩` with the line `EXDATE;VALUE=DATE:20240101` produces the
exclusion midnight 2024-01-01 carrying the anchor's timezone. -/
theorem C5_exdate_awareness_amended_witness :
    PyDateTime.tz { val := 19723 * 86400, tz := some 0 } =
      PyDateTime.tz { val := 100, tz := some 0 } :=
  (C5_exdate_awareness_amended { val := 100, tz := some 0 } "EXDATE;VALUE=DATE:20240101"
      { val := 19723 * 86400, tz := some 0 } (by decide)).1
    "EXDATE;VALUE=DATE" "20240101" (by decide) (by decide)

/-- C6: the claim says exceptions around one event's rule handling and
missing-start events are absorbed, so the occurrences of well-formed events
are still returned with no exception surfacing.  On scenario E's input — one
event with no start (which IS skipped) and one well-formed recurring event —
the call raises an uncaught `TypeError` on the well-formed event (dateutil
parsing applied to the pydantic datetime object, outside the rule-handling
`try`), so an exception does surface and nothing is returned. -/
theorem C6_exception_surfaces :
    project_recurring_events (some [evNoStart, evDaily]) windowMin windowMax
      = Except.error PyErr.typeError := by rfl

/-- C7: the claim says every processed event's derived anchor has the same
timezone-awareness as the window bounds.  No anchor is ever derived: for an
all-day master event under an aware window (the case whose branch would
attach the window's timezone) the derivation raises `TypeError` (dateutil
`parse` applied to the pydantic `date` object) before producing `dtstart`. -/
theorem C7_anchor_never_derived :
    project_recurring_events (some [evAllDay]) windowMin windowMax
      = Except.error PyErr.typeError := by rfl

/-- C8: the claim says the derived duration is non-negative even when the
backend's end precedes the start.  On an event whose end is one hour before
its start, the projection raises the uncaught `TypeError` before computing
any duration (and the derivation it would run computes `end − start` with no
lower bound), so no occurrence with `occurrence_end ≥ occurrence_start` —
or any occurrence at all — is produced. -/
theorem C8_projection_raises_negative_duration_input :
    project_recurring_events (some [evEndBeforeStart]) windowMin windowMax
      = Except.error PyErr.typeError := by rfl

/-- C9: the claim says the result is the stable start-sorted merge of every
master event's occurrences.  With two well-formed master events the call
raises the uncaught `TypeError` on the first of them; no merge or sort is
ever performed and nothing is returned. -/
theorem C9_projection_raises_before_merge :
    project_recurring_events (some [evDaily, evWeekly]) windowMin windowMax
      = Except.error PyErr.typeError := by rfl

/-- C10: the claim says occurrences of an event with an absent or empty
summary carry the literal "No Summary".  On an event whose summary is absent
the projection raises the uncaught `TypeError` before constructing any
`ProjectedEventOccurrence`, so no occurrence carries the fallback (the
fallback expression exists at calendar.py line 685 but is unreachable). -/
theorem C10_projection_raises_missing_summary_input :
    project_recurring_events (some [evNoSummary]) windowMin windowMax
      = Except.error PyErr.typeError := by rfl
